import Mathlib

/-!
Verification development for the CreatureStudio blueprint-validation and
bundle-export core.

The definitions below are a shallow embedding of the Python sources:

* `backend/app/models/blueprint.py` — the pydantic schema model and the
  `validate_chains_and_bodyparts` graph validator (the copy carrying the
  anatomy-V2 fields `chainsV2` / `bodyPartsV2`);
* `backend/app/services/export_service.py` — the data-only bundle exporter
  (`_material_slot_from_definition`, `_material_slots`, `_body_parts_from_v2`,
  `_body_parts_from_v1`, `_animal_definition_payload`, `_materials_payload`,
  `_runtime_payload`, `_manifest_payload`, `export_animal`);
* `backend/app/routers/export.py` — the `export_blueprint` route handler.

Modelling conventions:

* JSON documents are the inductive `Json` below.  JSON numbers are modelled
  by `JNum`, a decimal literal `mant / 10 ^ exp`; the repository's code never
  performs arithmetic on these numbers (they are only copied, compared
  against integer bounds and serialized), so decimal literals are a faithful
  carrier for every value the code handles.
* Python strings are Lean `String`s; the Python operations `str.strip`,
  `str.lower`, substring tests and code-point ordering are re-implemented
  over the character list so that all of them evaluate inside the kernel.
* Python `dict`s that the code builds in insertion order are association
  lists (`List (String × Json)` etc.); key lookup takes the first match,
  matching `dict` semantics for the unique-key dictionaries the code builds.
* The SHA-256 digest of `_compute_sha256` is kept abstract: every theorem
  that mentions checksums is stated for an arbitrary digest function
  `hash : String → String`, which is the only property of `hashlib.sha256`
  the code relies on (a deterministic function of the file bytes).
-/

namespace CreatureStudio

/-- Decimal number `mant / 10 ^ exp`, the carrier for JSON numeric literals
(Python ints have `exp = 0`, floats carry their decimal digits). -/
structure JNum where
  mant : Int
  exp : Nat
deriving DecidableEq, Repr

/-- Shallow JSON value: the untyped nested map/array/scalar structure the
schema model parses and the exporter serializes. -/
inductive Json where
  | null
  | bool (b : Bool)
  | num (q : JNum)
  | str (s : String)
  | arr (xs : List Json)
  | obj (kvs : List (String × Json))

/-- First-match key lookup in an object body, i.e. Python `dict.get`. -/
def jLookup : List (String × Json) → String → Option Json
  | [], _ => none
  | (k, v) :: rest, key => if k = key then some v else jLookup rest key

/-- Whether a JSON value is the literal `null`. -/
def Json.isNull : Json → Bool
  | .null => true
  | _ => false

/-- Python `str.strip()` restricted to ASCII whitespace, the alphabet the
repository's version strings use. -/
def pyStrip (s : String) : String :=
  String.mk (((s.data.dropWhile Char.isWhitespace).reverse.dropWhile Char.isWhitespace).reverse)

/-- ASCII lower-casing of one character, as `str.lower` acts on the ASCII
range used by the material-workflow heuristic. -/
def lowerChar (c : Char) : Char :=
  if 65 ≤ c.toNat ∧ c.toNat ≤ 90 then Char.ofNat (c.toNat + 32) else c

/-- Python `str.lower()` over the ASCII range. -/
def pyLower (s : String) : String :=
  String.mk (s.data.map lowerChar)

/-- Substring membership on character lists (`needle` occurs in `hay`). -/
def containsList (hay needle : List Char) : Bool :=
  hay.tails.any (fun l => needle.isPrefixOf l)

/-- Python's `needle in hay` substring test. -/
def containsStr (hay needle : String) : Bool :=
  containsList hay.data needle.data

/-- Code-point comparison of strings, as Python's `<` on `str` used by
`sorted`. -/
def ltChars : List Char → List Char → Bool
  | [], [] => false
  | [], _ :: _ => true
  | _ :: _, [] => false
  | a :: as, b :: bs =>
      if a.toNat < b.toNat then true
      else if b.toNat < a.toNat then false
      else ltChars as bs

/-- Insert a string into a `ltChars`-sorted list. -/
def insSorted (y : String) : List String → List String
  | [] => [y]
  | z :: zs => if ltChars y.data z.data then y :: z :: zs else z :: insSorted y zs

/-- Insertion sort by code-point order: Python's `sorted` on strings. -/
def sortStrs : List String → List String
  | [] => []
  | x :: xs => insSorted x (sortStrs xs)

/-- Keep the first occurrence of each string: combined with `sortStrs` this
models Python's `sorted(set(...))`. -/
def dedupStrs : List String → List String
  | [] => []
  | x :: xs => if xs.contains x then dedupStrs xs else x :: dedupStrs xs

/-! ### Schema model (`backend/app/models/blueprint.py`)

Field defaults reproduce the pydantic `Field(default=...)` declarations.
Optional fields are `Option`s; `Dict[...]` fields are association lists in
insertion order. -/

/-- `BlueprintMeta`: metadata about a species blueprint. -/
structure BlueprintMeta where
  name : String
  version : String := "1.0.0"
  schemaVersion : String := "4.2.0"
  author : Option String := none
  source : Option String := none
  notes : Option String := none
  forceLegacyBuild : Bool := false
deriving DecidableEq, Repr

/-- `BodyPlan`: high-level body plan classification and options. -/
structure BodyPlan where
  type : String
  hasTail : Bool := true
  hasTrunk : Bool := false
  hasWings : Bool := false
  hasEars : Bool := true
  symmetryMode : Option String := some "bilateral"
  notes : Option String := none
deriving DecidableEq, Repr

/-- `Bone`: single bone in the control skeleton. -/
structure Bone where
  name : String
  parent : String
  position : List JNum
deriving DecidableEq, Repr

/-- `Skeleton`: control skeleton for a species blueprint. -/
structure Skeleton where
  root : Option String := none
  coordinateSystem : Option String := none
  bones : List Bone
deriving DecidableEq, Repr

/-- `Chains`: legacy named anatomical chains mapping to bone-name lists. -/
structure Chains where
  spine : List String := []
  neck : List String := []
  head : List String := []
  trunk : List String := []
  tail : List String := []
  earLeft : List String := []
  earRight : List String := []
  frontLegL : List String := []
  frontLegR : List String := []
  backLegL : List String := []
  backLegR : List String := []
  extraChains : List (String × List String) := []
deriving DecidableEq, Repr

/-- `ChainDefinition`: generalised chain used by the anatomy V2 pipeline.
`extendTo` is `Union[bool, Dict[str, Any]]` in the source and is carried as
an untyped JSON value here; no code path under verification inspects it. -/
structure ChainDefinition where
  name : String
  bones : List String
  radii : Option (List JNum) := none
  profile : Option String := none
  extendTo : Option Json := none

/-- `LimbOptionsModel`: general limb options (legs, tusks, ear bases). -/
structure LimbOptionsModel where
  radii : List JNum := []
  sides : Int := 16
  capStart : Bool := true
  capEnd : Bool := true
deriving DecidableEq, Repr

/-- `NeckOptionsModel`: options for a neck segment. -/
structure NeckOptionsModel where
  radii : List JNum := []
  sides : Int := 18
  yOffset : JNum := ⟨0, 0⟩
  capBase : Bool := true
  capEnd : Bool := true
deriving DecidableEq, Repr

/-- `HeadOptionsModel`: spherical/ellipsoid head options. -/
structure HeadOptionsModel where
  parentBone : String := "head"
  radius : JNum := ⟨6, 1⟩
  sides : Int := 22
  elongation : JNum := ⟨1, 0⟩
deriving DecidableEq, Repr

/-- `RumpExtensionModel`: optional rump expansion over the rear legs. -/
structure RumpExtensionModel where
  bones : List String := []
  extraMargin : JNum := ⟨0, 0⟩
  boneRadii : List (String × JNum) := []
deriving DecidableEq, Repr

/-- `TorsoOptionsModel`: torso options including rump bulge. -/
structure TorsoOptionsModel where
  radii : List JNum := []
  sides : Int := 28
  radiusProfile : Option String := none
  rumpBulgeDepth : JNum := ⟨0, 0⟩
  extendRumpToRearLegs : Option RumpExtensionModel := none
  capStart : Bool := true
  capEnd : Bool := true
  lowPoly : Bool := false
  lowPolySegments : Int := 9
  lowPolyWeldTolerance : JNum := ⟨0, 0⟩
deriving DecidableEq, Repr

/-- `NoseOptionsModel`: nose/trunk/tusk options. -/
structure NoseOptionsModel where
  radii : List JNum := []
  baseRadius : JNum := ⟨2, 1⟩
  midRadius : Option JNum := none
  tipRadius : JNum := ⟨1, 1⟩
  sides : Int := 16
  capStart : Bool := true
  capEnd : Bool := true
  lengthScale : JNum := ⟨1, 0⟩
  rootBone : Option String := none
deriving DecidableEq, Repr

/-- `TailOptionsModel`: tapered tail options. -/
structure TailOptionsModel where
  radii : List JNum := []
  baseRadius : JNum := ⟨12, 2⟩
  tipRadius : JNum := ⟨5, 2⟩
  sides : Int := 14
  capStart : Bool := true
  capEnd : Bool := true
deriving DecidableEq, Repr

/-- `EarOptionsModel`: ear flap options. -/
structure EarOptionsModel where
  radii : List JNum := []
  sides : Int := 16
  flatten : JNum := ⟨2, 1⟩
  tilt : JNum := ⟨0, 0⟩
deriving DecidableEq, Repr

/-- `BodyPartOptions`: the variant union
`Union[Torso.., Neck.., Head.., Nose.., Tail.., Ear.., Limb.., Dict[str, Any]]`,
with `raw` the open untyped record member. -/
inductive BodyPartOptions where
  | torso (o : TorsoOptionsModel)
  | neck (o : NeckOptionsModel)
  | head (o : HeadOptionsModel)
  | nose (o : NoseOptionsModel)
  | tail (o : TailOptionsModel)
  | ear (o : EarOptionsModel)
  | limb (o : LimbOptionsModel)
  | raw (d : List (String × Json))

/-- `BodyPartDefinition`: generalised body part of the anatomy V2 pipeline. -/
structure BodyPartDefinition where
  name : String
  generator : String
  chain : String
  options : BodyPartOptions

/-- `SizeProfile`: simple size or radius profile. -/
structure SizeProfile where
  radius : Option JNum := none
  radiusTop : Option JNum := none
  radiusBottom : Option JNum := none
  lengthScale : Option JNum := none
  widthScale : Option JNum := none
deriving DecidableEq, Repr

/-- `Sizes`: lookup tables for radii and scale factors. -/
structure Sizes where
  defaultRadius : Option JNum := none
  byBone : List (String × SizeProfile) := []
  byChain : List (String × SizeProfile) := []
deriving DecidableEq, Repr

/-- `BodyPartRef`: legacy configuration for a single body part generator. -/
structure BodyPartRef where
  generator : String
  chain : String
  options : BodyPartOptions

/-- `BodyPartsConfig`: legacy mapping from body part names to generators. -/
structure BodyPartsConfig where
  torso : Option BodyPartRef := none
  neck : Option BodyPartRef := none
  head : Option BodyPartRef := none
  trunk : Option BodyPartRef := none
  tail : Option BodyPartRef := none
  earLeft : Option BodyPartRef := none
  earRight : Option BodyPartRef := none
  frontLegL : Option BodyPartRef := none
  frontLegR : Option BodyPartRef := none
  backLegL : Option BodyPartRef := none
  backLegR : Option BodyPartRef := none
  extraParts : List (String × BodyPartRef) := []

/-- `MaterialDefinition`: simple material definition. -/
structure MaterialDefinition where
  color : Option String := none
  roughness : Option JNum := none
  metallic : Option JNum := none
  specular : Option JNum := none
  emissive : Option String := none
deriving DecidableEq, Repr

/-- `MaterialsConfig`: material configuration for an animal. -/
structure MaterialsConfig where
  surface : Option MaterialDefinition := none
  eye : Option MaterialDefinition := none
  tusk : Option MaterialDefinition := none
  nail : Option MaterialDefinition := none
  extraMaterials : List (String × MaterialDefinition) := []
deriving DecidableEq, Repr

/-- `BehaviorPresets`: high-level behavior presets for an animal. -/
structure BehaviorPresets where
  gait : Option String := none
  idleBehaviors : List String := []
  specialInteractions : List String := []
  tags : List String := []
deriving DecidableEq, Repr

/-- `SpeciesBlueprint`: top-level species blueprint model. -/
structure SpeciesBlueprint where
  meta : BlueprintMeta
  bodyPlan : BodyPlan
  skeleton : Skeleton
  chains : Option Chains := none
  sizes : Sizes
  bodyParts : Option BodyPartsConfig := none
  chainsV2 : List ChainDefinition := []
  bodyPartsV2 : List BodyPartDefinition := []
  materials : MaterialsConfig
  behaviorPresets : BehaviorPresets

/-! ### Body-part options union resolution

The `options` payload is `Union[Torso.., Neck.., .., Limb.., Dict[str, Any]]`
under pydantic v2's default *smart* union: a JSON-derived `dict` input is an
exact type match for the `Dict[str, Any]` member, while a model member built
from a dict never ranks as an exact match, so every document options record
resolves to the open untyped record.  The typed model variants exist in the
union (and dump via `_serializable_body_part_options`) but are unreachable
from document validation. -/

/-- Union resolution of an options record: pydantic v2 smart-union exact
matching sends every dict payload to the `Dict[str, Any]` member, carried
verbatim. -/
def parseOptions (d : List (String × Json)) : BodyPartOptions :=
  .raw d

/-- JSON value of an optional string (pydantic dumps `None` as `null`). -/
def jOptStr : Option String → Json
  | some s => .str s
  | none => .null

/-- JSON value of an optional float. -/
def jOptNum : Option JNum → Json
  | some q => .num q
  | none => .null

/-- `model_dump` of `RumpExtensionModel`. -/
def dumpRump (o : RumpExtensionModel) : Json :=
  .obj [("bones", .arr (o.bones.map .str)),
        ("extraMargin", .num o.extraMargin),
        ("boneRadii", .obj (o.boneRadii.map (fun kv => (kv.1, .num kv.2))))]

/-- `model_dump` of each option model and the verbatim raw record, i.e.
`_serializable_body_part_options` in the export service. -/
def dumpOptions : BodyPartOptions → List (String × Json)
  | .torso o =>
      [("radii", .arr (o.radii.map .num)),
       ("sides", .num ⟨o.sides, 0⟩),
       ("radiusProfile", jOptStr o.radiusProfile),
       ("rumpBulgeDepth", .num o.rumpBulgeDepth),
       ("extendRumpToRearLegs",
         match o.extendRumpToRearLegs with
         | some r => dumpRump r
         | none => .null),
       ("capStart", .bool o.capStart),
       ("capEnd", .bool o.capEnd),
       ("lowPoly", .bool o.lowPoly),
       ("lowPolySegments", .num ⟨o.lowPolySegments, 0⟩),
       ("lowPolyWeldTolerance", .num o.lowPolyWeldTolerance)]
  | .neck o =>
      [("radii", .arr (o.radii.map .num)),
       ("sides", .num ⟨o.sides, 0⟩),
       ("yOffset", .num o.yOffset),
       ("capBase", .bool o.capBase),
       ("capEnd", .bool o.capEnd)]
  | .head o =>
      [("parentBone", .str o.parentBone),
       ("radius", .num o.radius),
       ("sides", .num ⟨o.sides, 0⟩),
       ("elongation", .num o.elongation)]
  | .nose o =>
      [("radii", .arr (o.radii.map .num)),
       ("baseRadius", .num o.baseRadius),
       ("midRadius", jOptNum o.midRadius),
       ("tipRadius", .num o.tipRadius),
       ("sides", .num ⟨o.sides, 0⟩),
       ("capStart", .bool o.capStart),
       ("capEnd", .bool o.capEnd),
       ("lengthScale", .num o.lengthScale),
       ("rootBone", jOptStr o.rootBone)]
  | .tail o =>
      [("radii", .arr (o.radii.map .num)),
       ("baseRadius", .num o.baseRadius),
       ("tipRadius", .num o.tipRadius),
       ("sides", .num ⟨o.sides, 0⟩),
       ("capStart", .bool o.capStart),
       ("capEnd", .bool o.capEnd)]
  | .ear o =>
      [("radii", .arr (o.radii.map .num)),
       ("sides", .num ⟨o.sides, 0⟩),
       ("flatten", .num o.flatten),
       ("tilt", .num o.tilt)]
  | .limb o =>
      [("radii", .arr (o.radii.map .num)),
       ("sides", .num ⟨o.sides, 0⟩),
       ("capStart", .bool o.capStart),
       ("capEnd", .bool o.capEnd)]
  | .raw d => d

/-! ### Graph validator (`SpeciesBlueprint.validate_chains_and_bodyparts`) -/

/-- Python `sep.join(list)`. -/
def joinSep (sep : String) : List String → String
  | [] => ""
  | [x] => x
  | x :: y :: xs => x ++ sep ++ joinSep sep (y :: xs)

/-- Bone references of a chain absent from the skeleton's bone-name set. -/
def missingBones (skBones : List String) (c : ChainDefinition) : List String :=
  c.bones.filter (fun b => !skBones.contains b)

/-- Error message raised for a chain with dangling bone references. -/
def chainErrMsg (chainName : String) (missing : List String) : String :=
  "Chain '" ++ chainName ++ "' references missing bones: " ++ joinSep ", " missing

/-- Error message raised for a body part targeting an unknown chain. -/
def partErrMsg (partName chainName : String) (chainNames : List String) : String :=
  let sorted := sortStrs (dedupStrs chainNames)
  "Body part '" ++ partName ++ "' targets unknown chain '" ++ chainName ++
    "'. Known chains: " ++
    (if sorted.isEmpty then "none" else joinSep ", " sorted)

/-- Error message raised for unknown `additionalChains` references. -/
def addChainsErrMsg (partName : String) (missing : List String) : String :=
  "Body part '" ++ partName ++ "' references unknown additionalChains: " ++
    joinSep ", " missing

/-- String entries of the `additionalChains` list of a raw options record
(`options.get("additionalChains") or []`). -/
def additionalChainEntries (d : List (String × Json)) : List String :=
  match jLookup d "additionalChains" with
  | some (.arr xs) => xs.filterMap (fun j => match j with | .str s => some s | _ => none)
  | _ => []

/-- The chain-bone loop of the validator: raises on the first chain with
missing bones, naming that chain and all of its missing bones. -/
def checkChains (skBones : List String) : List ChainDefinition → Except String Unit
  | [] => .ok ()
  | c :: rest =>
      let missing := missingBones skBones c
      if missing.isEmpty then checkChains skBones rest
      else .error (chainErrMsg c.name missing)

/-- The body-part loop of the validator: per part, first the chain-membership
check, then the `additionalChains` check (only raw untyped records are
dictionaries in the source's `isinstance(options, dict)` test). -/
def checkParts (chainNames : List String) : List BodyPartDefinition → Except String Unit
  | [] => .ok ()
  | p :: rest =>
      if !chainNames.contains p.chain then
        .error (partErrMsg p.name p.chain chainNames)
      else
        match p.options with
        | .raw d =>
            let missing := (additionalChainEntries d).filter (fun n => !chainNames.contains n)
            if missing.isEmpty then checkParts chainNames rest
            else .error (addChainsErrMsg p.name missing)
        | _ => checkParts chainNames rest

/-- `validate_chains_and_bodyparts`: the `model_validator(mode="after")`
graph validator, returning the blueprint on success and the message of the
raised `ValueError` on failure. -/
def validate_chains_and_bodyparts (bp : SpeciesBlueprint) : Except String SpeciesBlueprint :=
  let chainNames := bp.chainsV2.map (fun c => c.name)
  if !bp.bodyPartsV2.isEmpty && chainNames.isEmpty then
    .error "chainsV2 must be provided when bodyPartsV2 are defined"
  else
    let skBones := bp.skeleton.bones.map (fun b => b.name)
    match checkChains skBones bp.chainsV2 with
    | .error e => .error e
    | .ok _ =>
        match checkParts chainNames bp.bodyPartsV2 with
        | .error e => .error e
        | .ok _ => .ok bp

/-! ### Documents and the validate / serialize pair

A document is the raw JSON-like input of `validate`.  The document mirrors
the typed blueprint except at the variant-typed option payloads, which stay
untyped JSON records; on every other field the pydantic validators of the
schema model act as the identity on canonical (shape-correct) data, so the
document carries those fields at their parsed types.  `parse…` is the
pydantic construction (field validation, union resolution and the `after`
model validator); `dump…` is `model_dump`. -/

/-- Document form of a V2 body part: its options payload is untyped. -/
structure BodyPartDoc where
  name : String
  generator : String
  chain : String
  options : List (String × Json)

/-- Document form of a legacy `BodyPartRef`. -/
structure BodyPartRefDoc where
  generator : String
  chain : String
  options : List (String × Json)

/-- Document form of the legacy `BodyPartsConfig`. -/
structure BodyPartsConfigDoc where
  torso : Option BodyPartRefDoc := none
  neck : Option BodyPartRefDoc := none
  head : Option BodyPartRefDoc := none
  trunk : Option BodyPartRefDoc := none
  tail : Option BodyPartRefDoc := none
  earLeft : Option BodyPartRefDoc := none
  earRight : Option BodyPartRefDoc := none
  frontLegL : Option BodyPartRefDoc := none
  frontLegR : Option BodyPartRefDoc := none
  backLegL : Option BodyPartRefDoc := none
  backLegR : Option BodyPartRefDoc := none
  extraParts : List (String × BodyPartRefDoc) := []

/-- Document form of a species blueprint. -/
structure SpeciesBlueprintDoc where
  meta : BlueprintMeta
  bodyPlan : BodyPlan
  skeleton : Skeleton
  chains : Option Chains := none
  sizes : Sizes
  bodyParts : Option BodyPartsConfigDoc := none
  chainsV2 : List ChainDefinition := []
  bodyPartsV2 : List BodyPartDoc := []
  materials : MaterialsConfig
  behaviorPresets : BehaviorPresets

/-- Parse one V2 body part document (union resolution on its options). -/
def parseBodyPartDoc (p : BodyPartDoc) : BodyPartDefinition :=
  ⟨p.name, p.generator, p.chain, parseOptions p.options⟩

/-- Parse one legacy body-part reference document. -/
def parseRefDoc (r : BodyPartRefDoc) : BodyPartRef :=
  ⟨r.generator, r.chain, parseOptions r.options⟩

/-- Parse the legacy body-parts configuration document. -/
def parseConfigDoc (c : BodyPartsConfigDoc) : BodyPartsConfig :=
  ⟨c.torso.map parseRefDoc, c.neck.map parseRefDoc, c.head.map parseRefDoc,
   c.trunk.map parseRefDoc, c.tail.map parseRefDoc, c.earLeft.map parseRefDoc,
   c.earRight.map parseRefDoc, c.frontLegL.map parseRefDoc,
   c.frontLegR.map parseRefDoc, c.backLegL.map parseRefDoc,
   c.backLegR.map parseRefDoc,
   c.extraParts.map (fun kv => (kv.1, parseRefDoc kv.2))⟩

/-- Schema-model construction: the typed blueprint value a document yields
before the graph validator runs. -/
def translateDoc (d : SpeciesBlueprintDoc) : SpeciesBlueprint :=
  ⟨d.meta, d.bodyPlan, d.skeleton, d.chains, d.sizes,
   d.bodyParts.map parseConfigDoc, d.chainsV2,
   d.bodyPartsV2.map parseBodyPartDoc, d.materials, d.behaviorPresets⟩

/-- `validate(document)`: schema-model construction followed by the graph
validator. -/
def parseSpeciesBlueprintDoc (d : SpeciesBlueprintDoc) : Except String SpeciesBlueprint :=
  validate_chains_and_bodyparts (translateDoc d)

/-- Serialize one V2 body part back to a document. -/
def dumpBodyPart (p : BodyPartDefinition) : BodyPartDoc :=
  ⟨p.name, p.generator, p.chain, dumpOptions p.options⟩

/-- Serialize one legacy body-part reference back to a document. -/
def dumpRef (r : BodyPartRef) : BodyPartRefDoc :=
  ⟨r.generator, r.chain, dumpOptions r.options⟩

/-- Serialize the legacy body-parts configuration back to a document. -/
def dumpConfig (c : BodyPartsConfig) : BodyPartsConfigDoc :=
  ⟨c.torso.map dumpRef, c.neck.map dumpRef, c.head.map dumpRef,
   c.trunk.map dumpRef, c.tail.map dumpRef, c.earLeft.map dumpRef,
   c.earRight.map dumpRef, c.frontLegL.map dumpRef, c.frontLegR.map dumpRef,
   c.backLegL.map dumpRef, c.backLegR.map dumpRef,
   c.extraParts.map (fun kv => (kv.1, dumpRef kv.2))⟩

/-- Serialize a blueprint to a document (`model_dump`). -/
def dumpSpeciesBlueprint (bp : SpeciesBlueprint) : SpeciesBlueprintDoc :=
  ⟨bp.meta, bp.bodyPlan, bp.skeleton, bp.chains, bp.sizes,
   bp.bodyParts.map dumpConfig, bp.chainsV2,
   bp.bodyPartsV2.map dumpBodyPart, bp.materials, bp.behaviorPresets⟩


/-! ### Material resolver (`_material_slot_from_definition`, `_material_slots`) -/

/-- The `parameters` record of a material slot: `color` and `emissive` are
copied under Python truthiness (non-empty string), `roughness`, `metallic`
and `specular` under `is not None`. -/
def slotParameters (d : MaterialDefinition) : List (String × Json) :=
  (match d.color with
   | some c => if c = "" then [] else [("color", Json.str c)]
   | none => []) ++
  (match d.roughness with
   | some r => [("roughness", Json.num r)]
   | none => []) ++
  (match d.metallic with
   | some m => [("metallic", Json.num m)]
   | none => []) ++
  (match d.specular with
   | some s => [("specular", Json.num s)]
   | none => []) ++
  (match d.emissive with
   | some e => if e = "" then [] else [("emissive", Json.str e)]
   | none => [])

/-- `_material_slot_from_definition`: one normalized slot descriptor.  When
`forceNodeTsl` holds the slot is upgraded to the node/TSL workflow and
carries the `elephantSkinTSL` node graph with its three tunable
parameters. -/
def materialSlotFromDefinition (name : String) (d : MaterialDefinition)
    (forceNodeTsl : Bool) : Json :=
  let params := slotParameters d
  let workflow := if forceNodeTsl then "node/tsl" else "pbr"
  let base : List (String × Json) :=
    [("slot", .str name), ("type", .str name), ("workflow", .str workflow),
     ("parameters", .obj params)]
  if forceNodeTsl then
    .obj (base ++
      [("nodeGraph", .obj
         [("graph", .str "elephantSkinTSL"),
          ("parameters", .obj
            [("albedoTint", (jLookup params "color").getD (.str "#7a6f63")),
             ("roughness", (jLookup params "roughness").getD (.num ⟨78, 2⟩)),
             ("displacement", .num ⟨2, 2⟩)])]),
       ("useTSLSkin", .bool true)])
  else
    .obj base

/-- The workflow-selection heuristic `animal_is_elephant`: the body plan
declares a trunk, or the display name contains "elephant" case-insensitively. -/
def animalIsElephant (bp : SpeciesBlueprint) : Bool :=
  bp.bodyPlan.hasTrunk || containsStr (pyLower bp.meta.name) "elephant"

/-- `_material_slots`: the ordered slot sequence (surface, eye, tusk, nail,
then `extraMaterials` in insertion order); the heuristic upgrades `surface`
and every extra material, never `eye` / `tusk` / `nail`. -/
def materialSlots (bp : SpeciesBlueprint) : List Json :=
  let force := animalIsElephant bp
  (match bp.materials.surface with
   | some d => [materialSlotFromDefinition "surface" d force]
   | none => []) ++
  (match bp.materials.eye with
   | some d => [materialSlotFromDefinition "eye" d false]
   | none => []) ++
  (match bp.materials.tusk with
   | some d => [materialSlotFromDefinition "tusk" d false]
   | none => []) ++
  (match bp.materials.nail with
   | some d => [materialSlotFromDefinition "nail" d false]
   | none => []) ++
  bp.materials.extraMaterials.map (fun kv => materialSlotFromDefinition kv.1 kv.2 force)

/-! ### Bundle exporter (`export_service.py`) -/

/-- `_safe_animal_name`: strip every character that is not an ASCII letter,
digit or underscore (`re.sub(r"[^A-Za-z0-9_]", "", name)`). -/
def safeAnimalName (s : String) : String :=
  String.mk (s.data.filter (fun c =>
    (65 ≤ c.toNat && c.toNat ≤ 90) || (97 ≤ c.toNat && c.toNat ≤ 122) ||
    (48 ≤ c.toNat && c.toNat ≤ 57) || c == '_'))

/-- `CONTRACT_VERSION` stamp. -/
def CONTRACT_VERSION : String := "1.0.0"

/-- `DEFAULT_MIN_ZOO_VERSION` stamp. -/
def DEFAULT_MIN_ZOO_VERSION : String := "0.1.0"

/-- `_body_parts_from_v2`: flatten the V2 definitions. -/
def bodyPartsFromV2 (defs : List BodyPartDefinition) : List Json :=
  defs.map (fun p => .obj
    [("name", .str p.name), ("generator", .str p.generator),
     ("chain", .str p.chain), ("options", .obj (dumpOptions p.options))])

/-- One legacy slot of `_body_parts_from_v1`. -/
def v1Part (key : String) : Option BodyPartRef → List Json
  | some r => [.obj
      [("name", .str key), ("generator", .str r.generator),
       ("chain", .str r.chain), ("options", .obj (dumpOptions r.options))]]
  | none => []

/-- `_body_parts_from_v1`: the fixed slot enumeration then `extraParts`. -/
def bodyPartsFromV1 (c : BodyPartsConfig) : List Json :=
  v1Part "torso" c.torso ++ v1Part "neck" c.neck ++ v1Part "head" c.head ++
  v1Part "trunk" c.trunk ++ v1Part "tail" c.tail ++ v1Part "earLeft" c.earLeft ++
  v1Part "earRight" c.earRight ++ v1Part "frontLegL" c.frontLegL ++
  v1Part "frontLegR" c.frontLegR ++ v1Part "backLegL" c.backLegL ++
  v1Part "backLegR" c.backLegR ++
  c.extraParts.map (fun kv => .obj
    [("name", .str kv.1), ("generator", .str (kv.2 : BodyPartRef).generator),
     ("chain", .str (kv.2 : BodyPartRef).chain),
     ("options", .obj (dumpOptions (kv.2 : BodyPartRef).options))])

/-- The exporter's body-part selection: `bodyPartsV2` when non-empty, else
the legacy `bodyParts` map when present, else empty. -/
def exportParts (bp : SpeciesBlueprint) : List Json :=
  if !bp.bodyPartsV2.isEmpty then bodyPartsFromV2 bp.bodyPartsV2
  else
    match bp.bodyParts with
    | some c => bodyPartsFromV1 c
    | none => []

/-- The skeleton array of the definition payload: each bone carries its rest
position plus the fixed identity rotation/scale (`parent` empty becomes
`null` through `bone.parent or None`). -/
def exportSkeleton (bones : List Bone) : List Json :=
  bones.map (fun b => .obj
    [("name", .str b.name),
     ("parent", if b.parent = "" then .null else .str b.parent),
     ("restTransform", .obj
       [("position", .arr (b.position.map .num)),
        ("rotation", .arr [.num ⟨0, 0⟩, .num ⟨0, 0⟩, .num ⟨0, 0⟩]),
        ("scale", .arr [.num ⟨1, 0⟩, .num ⟨1, 0⟩, .num ⟨1, 0⟩])])])

/-- `model_dump` of the legacy chains map. -/
def dumpChains (c : Chains) : Json :=
  .obj [("spine", .arr (c.spine.map .str)), ("neck", .arr (c.neck.map .str)),
        ("head", .arr (c.head.map .str)), ("trunk", .arr (c.trunk.map .str)),
        ("tail", .arr (c.tail.map .str)), ("earLeft", .arr (c.earLeft.map .str)),
        ("earRight", .arr (c.earRight.map .str)),
        ("frontLegL", .arr (c.frontLegL.map .str)),
        ("frontLegR", .arr (c.frontLegR.map .str)),
        ("backLegL", .arr (c.backLegL.map .str)),
        ("backLegR", .arr (c.backLegR.map .str)),
        ("extraChains", .obj (c.extraChains.map (fun kv => (kv.1, .arr (kv.2.map .str)))))]

/-- `_animal_definition_payload`. -/
def animalDefinitionPayload (bp : SpeciesBlueprint) (animalSafe schemaVersion : String) : Json :=
  .obj
    ([("contractVersion", .str CONTRACT_VERSION),
      ("schemaVersion", .str schemaVersion),
      ("minZooVersion", .str DEFAULT_MIN_ZOO_VERSION),
      ("speciesKey", .str animalSafe),
      ("displayName", .str bp.meta.name),
      ("skeleton", .arr (exportSkeleton bp.skeleton.bones)),
      ("parts", .arr (exportParts bp)),
      ("materials", .arr (materialSlots bp))] ++
     (match bp.chains with
      | some c => [("chains", dumpChains c)]
      | none => []))

/-- `_materials_payload`. -/
def materialsPayload (bp : SpeciesBlueprint) (schemaVersion : String) : Json :=
  .obj [("contractVersion", .str CONTRACT_VERSION),
        ("schemaVersion", .str schemaVersion),
        ("minZooVersion", .str DEFAULT_MIN_ZOO_VERSION),
        ("slots", .arr (materialSlots bp)),
        ("textures", .obj [])]

/-- Python truthiness of the optional gait string. -/
def gaitTruthy (bp : SpeciesBlueprint) : Bool :=
  match bp.behaviorPresets.gait with
  | some s => s ≠ ""
  | none => false

/-- `_runtime_payload`: stamps, then a `locomotion` object only when a gait
is set and a `behavior` object only when idle behaviors or special
interactions are non-empty. -/
def runtimePayload (bp : SpeciesBlueprint) (schemaVersion : String) : Json :=
  let locomotion : List (String × Json) :=
    match bp.behaviorPresets.gait with
    | some s => if s = "" then [] else [("gait", .str s)]
    | none => []
  let behavior : List (String × Json) :=
    (if bp.behaviorPresets.idleBehaviors.isEmpty then []
     else [("idleBehaviors", .arr (bp.behaviorPresets.idleBehaviors.map .str))]) ++
    (if bp.behaviorPresets.specialInteractions.isEmpty then []
     else [("specialInteractions", .arr (bp.behaviorPresets.specialInteractions.map .str))])
  .obj
    ([("contractVersion", .str CONTRACT_VERSION),
      ("schemaVersion", .str schemaVersion),
      ("minZooVersion", .str DEFAULT_MIN_ZOO_VERSION)] ++
     (if locomotion.isEmpty then [] else [("locomotion", .obj locomotion)]) ++
     (if behavior.isEmpty then [] else [("behavior", .obj behavior)]))

/-- `_manifest_payload`: stamps, the tooling block carrying the wall-clock
timestamp read at export time, the animal identity block and the checksum
table. -/
def manifestPayload (version animalName schemaVersion : String)
    (checksums : List (String × String)) (timestamp : String) : Json :=
  .obj [("contractVersion", .str CONTRACT_VERSION),
        ("schemaVersion", .str schemaVersion),
        ("minZooVersion", .str DEFAULT_MIN_ZOO_VERSION),
        ("tooling", .obj
          [("app", .str "CreatureStudio"),
           ("version", .str version),
           ("timestamp", .str timestamp)]),
        ("animal", .obj
          [("speciesKey", .str animalName),
           ("displayName", .str animalName)]),
        ("payloads", .obj (checksums.map (fun kv => (kv.1, .str kv.2))))]

/-! ### JSON serialization (`json.dumps(..., indent=2, sort_keys=True)`)

The serializer below is the canonical byte-level model of the exporter's
`json.dumps` calls: keys are sorted recursively as `sort_keys=True` does and
the rendering of every construct is a fixed deterministic function of the
value, so byte equality (and inequality) of two serialized payloads agrees
with the real output.  Whitespace is compact rather than `indent=2`; the
indentation policy is a fixed function of the structure and does not affect
any equality the claims compare. -/

/-- Insert a key-value pair into a key-sorted object body. -/
def insPair (p : String × Json) : List (String × Json) → List (String × Json)
  | [] => [p]
  | q :: qs => if ltChars p.1.data q.1.data then p :: q :: qs else q :: insPair p qs

/-- Sort an object body by key, as `sort_keys=True`. -/
def sortPairs : List (String × Json) → List (String × Json)
  | [] => []
  | p :: ps => insPair p (sortPairs ps)

/-- Decimal digits of a natural number (structural fuel recursion so the
definition evaluates inside the kernel). -/
def natDigits : Nat → Nat → List Char
  | 0, _ => []
  | fuel + 1, n =>
      if n < 10 then [Char.ofNat (48 + n)]
      else natDigits fuel (n / 10) ++ [Char.ofNat (48 + n % 10)]

/-- Render a natural number in decimal. -/
def renderNat (n : Nat) : String :=
  String.mk (natDigits (n + 1) n)

/-- Render a decimal number the way Python serializes the repository's
numeric literals: integers bare, floats with a decimal point. -/
def renderJNum (q : JNum) : String :=
  let sign := if q.mant < 0 then "-" else ""
  let m := q.mant.natAbs
  if q.exp = 0 then sign ++ renderNat m
  else
    let digits := renderNat m
    let digits := String.mk (List.replicate (q.exp + 1 - digits.data.length) '0') ++ digits
    let split := digits.data.length - q.exp
    sign ++ String.mk (digits.data.take split) ++ "." ++ String.mk (digits.data.drop split)

/-- Escape a string for a JSON string literal (quote and backslash; the
repository's payload strings contain no control characters). -/
def escapeJson (s : String) : String :=
  String.mk (s.data.flatMap (fun c =>
    if c == '"' then ['\\', '"']
    else if c == '\\' then ['\\', '\\']
    else [c]))

/-- Fuel-indexed serializer body. -/
def dumpJsonF : Nat → Json → String
  | 0, _ => ""
  | _ + 1, .null => "null"
  | _ + 1, .bool b => if b then "true" else "false"
  | _ + 1, .num q => renderJNum q
  | _ + 1, .str s => "\"" ++ escapeJson s ++ "\""
  | fuel + 1, .arr xs =>
      "[" ++ String.intercalate ", " (xs.map (dumpJsonF fuel)) ++ "]"
  | fuel + 1, .obj kvs =>
      "\x7b" ++
      String.intercalate ", " ((sortPairs kvs).map (fun kv =>
        "\"" ++ escapeJson kv.1 ++ "\": " ++ dumpJsonF fuel kv.2)) ++
      "\x7d"

/-- Serialize a JSON payload to its file bytes.  The fuel bound exceeds the
nesting depth of every payload the exporter builds. -/
def dumpJson (j : Json) : String := dumpJsonF 64 j

/-! ### The full blueprint `model_dump` (the `blueprint.json` payload) -/

/-- `model_dump` of the metadata block. -/
def metaJson (m : BlueprintMeta) : Json :=
  .obj [("name", .str m.name), ("version", .str m.version),
        ("schemaVersion", .str m.schemaVersion), ("author", jOptStr m.author),
        ("source", jOptStr m.source), ("notes", jOptStr m.notes),
        ("forceLegacyBuild", .bool m.forceLegacyBuild)]

/-- `model_dump` of the body plan. -/
def bodyPlanJson (b : BodyPlan) : Json :=
  .obj [("type", .str b.type), ("hasTail", .bool b.hasTail),
        ("hasTrunk", .bool b.hasTrunk), ("hasWings", .bool b.hasWings),
        ("hasEars", .bool b.hasEars), ("symmetryMode", jOptStr b.symmetryMode),
        ("notes", jOptStr b.notes)]

/-- `model_dump` of the skeleton. -/
def skeletonJson (s : Skeleton) : Json :=
  .obj [("root", jOptStr s.root),
        ("coordinateSystem", jOptStr s.coordinateSystem),
        ("bones", .arr (s.bones.map (fun b => .obj
          [("name", .str b.name), ("parent", .str b.parent),
           ("position", .arr (b.position.map .num))])))]

/-- `model_dump` of one size profile. -/
def sizeProfileJson (p : SizeProfile) : Json :=
  .obj [("radius", jOptNum p.radius), ("radiusTop", jOptNum p.radiusTop),
        ("radiusBottom", jOptNum p.radiusBottom),
        ("lengthScale", jOptNum p.lengthScale),
        ("widthScale", jOptNum p.widthScale)]

/-- `model_dump` of the sizes block. -/
def sizesJson (s : Sizes) : Json :=
  .obj [("defaultRadius", jOptNum s.defaultRadius),
        ("byBone", .obj (s.byBone.map (fun kv => (kv.1, sizeProfileJson kv.2)))),
        ("byChain", .obj (s.byChain.map (fun kv => (kv.1, sizeProfileJson kv.2))))]

/-- `model_dump` of one V2 chain definition. -/
def chainDefJson (c : ChainDefinition) : Json :=
  .obj [("name", .str c.name), ("bones", .arr (c.bones.map .str)),
        ("radii", match c.radii with
                  | some rs => .arr (rs.map .num)
                  | none => .null),
        ("profile", jOptStr c.profile),
        ("extendTo", match c.extendTo with
                     | some j => j
                     | none => .null)]

/-- `model_dump` of one V2 body part. -/
def bodyPartJson (p : BodyPartDefinition) : Json :=
  .obj [("name", .str p.name), ("generator", .str p.generator),
        ("chain", .str p.chain), ("options", .obj (dumpOptions p.options))]

/-- `model_dump` of one legacy body-part reference. -/
def refJson (r : BodyPartRef) : Json :=
  .obj [("generator", .str r.generator), ("chain", .str r.chain),
        ("options", .obj (dumpOptions r.options))]

/-- `model_dump` of an optional legacy reference slot. -/
def optRefJson : Option BodyPartRef → Json
  | some r => refJson r
  | none => .null

/-- `model_dump` of the legacy body-parts configuration. -/
def bodyPartsConfigJson (c : BodyPartsConfig) : Json :=
  .obj [("torso", optRefJson c.torso), ("neck", optRefJson c.neck),
        ("head", optRefJson c.head), ("trunk", optRefJson c.trunk),
        ("tail", optRefJson c.tail), ("earLeft", optRefJson c.earLeft),
        ("earRight", optRefJson c.earRight), ("frontLegL", optRefJson c.frontLegL),
        ("frontLegR", optRefJson c.frontLegR), ("backLegL", optRefJson c.backLegL),
        ("backLegR", optRefJson c.backLegR),
        ("extraParts", .obj (c.extraParts.map (fun kv => (kv.1, refJson kv.2))))]

/-- `model_dump` of one material definition. -/
def materialDefJson (d : MaterialDefinition) : Json :=
  .obj [("color", jOptStr d.color), ("roughness", jOptNum d.roughness),
        ("metallic", jOptNum d.metallic), ("specular", jOptNum d.specular),
        ("emissive", jOptStr d.emissive)]

/-- `model_dump` of an optional material slot. -/
def optMaterialDefJson : Option MaterialDefinition → Json
  | some d => materialDefJson d
  | none => .null

/-- `model_dump` of the materials configuration. -/
def materialsConfigJson (m : MaterialsConfig) : Json :=
  .obj [("surface", optMaterialDefJson m.surface), ("eye", optMaterialDefJson m.eye),
        ("tusk", optMaterialDefJson m.tusk), ("nail", optMaterialDefJson m.nail),
        ("extraMaterials", .obj (m.extraMaterials.map (fun kv => (kv.1, materialDefJson kv.2))))]

/-- `model_dump` of the behavior presets. -/
def behaviorPresetsJson (b : BehaviorPresets) : Json :=
  .obj [("gait", jOptStr b.gait),
        ("idleBehaviors", .arr (b.idleBehaviors.map .str)),
        ("specialInteractions", .arr (b.specialInteractions.map .str)),
        ("tags", .arr (b.tags.map .str))]

/-- `blueprint.model_dump()`: the verbatim source-blueprint payload written
to `blueprint.json` and `{DisplayName}Blueprint.json`. -/
def blueprintJson (bp : SpeciesBlueprint) : Json :=
  .obj [("meta", metaJson bp.meta), ("bodyPlan", bodyPlanJson bp.bodyPlan),
        ("skeleton", skeletonJson bp.skeleton),
        ("chains", match bp.chains with
                   | some c => dumpChains c
                   | none => .null),
        ("sizes", sizesJson bp.sizes),
        ("bodyParts", match bp.bodyParts with
                      | some c => bodyPartsConfigJson c
                      | none => .null),
        ("chainsV2", .arr (bp.chainsV2.map chainDefJson)),
        ("bodyPartsV2", .arr (bp.bodyPartsV2.map bodyPartJson)),
        ("materials", materialsConfigJson bp.materials),
        ("behaviorPresets", behaviorPresetsJson bp.behaviorPresets)]

/-! ### `export_animal`: written files, checksums, manifest -/

/-- The `(filename, file bytes)` payload dictionary of `export_animal`, in
insertion order: definition, materials, runtime and the two copies of the
source blueprint (the runtime entry is unconditional in the source). -/
def exportPayloadFiles (bp : SpeciesBlueprint) : List (String × String) :=
  [("AnimalDefinition.json",
    dumpJson (animalDefinitionPayload bp (safeAnimalName bp.meta.name) bp.meta.schemaVersion)),
   ("materials.json", dumpJson (materialsPayload bp bp.meta.schemaVersion)),
   ("runtime.json", dumpJson (runtimePayload bp bp.meta.schemaVersion)),
   ("blueprint.json", dumpJson (blueprintJson bp)),
   (bp.meta.name ++ "Blueprint.json", dumpJson (blueprintJson bp))]

/-- The checksum table recorded in the manifest: the digest of every payload
and passthrough asset file, keyed by filename (the manifest itself is
excluded). -/
def exportChecksums (hash : String → String) (bp : SpeciesBlueprint)
    (assets : List (String × String)) : List (String × String) :=
  (exportPayloadFiles bp ++ assets).map (fun kv => (kv.1, hash kv.2))

/-- The `(filename, file bytes)` sequence `export_animal` writes into the
staging directory, in write order: the payload dictionary, then the
passthrough assets, then the manifest.  `hash` is the content digest
recorded per file; `timestamp` is the wall-clock reading taken while
building the manifest; `assets` are the `(name, bytes)` files of the
optional reference-assets directory for this species. -/
def exportWrittenFiles (hash : String → String) (bp : SpeciesBlueprint)
    (version timestamp : String) (assets : List (String × String)) :
    List (String × String) :=
  (exportPayloadFiles bp ++ assets) ++
    [("manifest.json",
      dumpJson (manifestPayload version bp.meta.name bp.meta.schemaVersion
        (exportChecksums hash bp assets) timestamp))]

/-- Deterministic stand-in digest used to instantiate concrete export runs;
every theorem that depends on checksums is stated for an arbitrary digest
function, and this instance only supplies a computable witness. -/
def digestStandIn (s : String) : String :=
  renderNat s.data.length

/-! ### Export route handler (`routers/export.py:export_blueprint`) and the
filesystem effects of `export_animal` -/

/-- Minimal filesystem state: directory paths and `(path, bytes)` files. -/
structure FS where
  dirs : List String := []
  files : List (String × String) := []

/-- Remove a directory tree rooted at `path` (`shutil.rmtree`). -/
def FS.rmtree (fs : FS) (path : String) : FS :=
  ⟨fs.dirs.filter (fun d => !(d = path || containsStr d (path ++ "/"))),
   fs.files.filter (fun kv => !containsStr kv.1 (path ++ "/"))⟩

/-- Write a file, replacing any previous content at the path. -/
def FS.write (fs : FS) (path bytes : String) : FS :=
  ⟨fs.dirs, (path, bytes) :: fs.files.filter (fun kv => kv.1 ≠ path)⟩

/-- Create a directory (`mkdir(parents=True, exist_ok=True)`). -/
def FS.mkdir (fs : FS) (path : String) : FS :=
  ⟨if fs.dirs.contains path then fs.dirs else path :: fs.dirs, fs.files⟩

/-- Filesystem effects of `export_animal` under the export root `exports`:
create the root, replace the staging directory, write every payload and the
manifest, then write the zip archive (its bytes modelled as the
concatenation of the staged files).  Returns the archive path. -/
def exportAnimalFS (hash : String → String) (bp : SpeciesBlueprint)
    (version timestamp : String) (assets : List (String × String))
    (fs : FS) : FS × String :=
  let bundleName := safeAnimalName bp.meta.name ++ "V" ++ version
  let stagingDir := "exports/" ++ bundleName
  let fs := (fs.mkdir "exports").rmtree stagingDir
  let fs := fs.mkdir stagingDir
  let written := exportWrittenFiles hash bp version timestamp assets
  let fs := written.foldl (fun acc kv => acc.write (stagingDir ++ "/" ++ kv.1) kv.2) fs
  let zipPath := "exports/" ++ bundleName ++ ".zip"
  let zipBytes := String.join (written.map (fun kv => kv.1 ++ kv.2))
  (fs.write zipPath zipBytes, zipPath)

/-- Outcome of the export route. -/
inductive RouteResult where
  | badRequest (detail : String)
  | notFound (detail : String)
  | unprocessable (detail : String)
  | ok (name version zipPath : String)
deriving DecidableEq, Repr

/-- The blueprint store consulted by the route: named documents.  Name
resolution and the storage policy live outside the verified core; the store
returns the raw document for a name, or nothing. -/
structure BlueprintStore where
  entries : List (String × SpeciesBlueprintDoc) := []

/-- `export_blueprint`: strip the requested version and reject a blank one
with 400 before consulting storage; then load and validate the blueprint
(404 / 422 on failure); only then run `export_animal`. -/
def export_blueprint (store : BlueprintStore) (hash : String → String)
    (timestamp : String) (assets : List (String × String))
    (name bodyVersion : String) (fs : FS) : RouteResult × FS :=
  let version := pyStrip bodyVersion
  if version = "" then
    (.badRequest "Missing or invalid 'version' in request body.", fs)
  else
    match (store.entries.lookup name).map parseSpeciesBlueprintDoc with
    | none => (.notFound ("No blueprint found for name: " ++ name), fs)
    | some (.error e) => (.unprocessable e, fs)
    | some (.ok bp) =>
        let (fs, zipPath) := exportAnimalFS hash bp version timestamp assets fs
        (.ok bp.meta.name version ("/api/export/download/" ++ zipPath), fs)

/-! ## Helper lemmas -/

theorem strData_append (a b : String) : (a ++ b).data = a.data ++ b.data := by
  cases a; cases b; rfl

theorem str_append_assoc (a b c : String) : (a ++ b) ++ c = a ++ (b ++ c) := by
  cases a; cases b; cases c
  show String.mk _ = String.mk _
  rw [List.append_assoc]

theorem isPrefixOf_self_append (a b : List Char) : a.isPrefixOf (a ++ b) = true := by
  induction a with
  | nil => simp [List.isPrefixOf]
  | cons x xs ih => simp [List.isPrefixOf, ih]

theorem containsList_of_isPrefixOf (l t : List Char) (h : t.isPrefixOf l = true) :
    containsList l t = true := by
  cases l <;> simp [containsList, h]

theorem containsList_cons (x : Char) (l t : List Char) :
    containsList (x :: l) t = (t.isPrefixOf (x :: l) || containsList l t) := by
  simp [containsList]

theorem containsList_middle (pre t post : List Char) :
    containsList (pre ++ (t ++ post)) t = true := by
  induction pre with
  | nil => exact containsList_of_isPrefixOf _ _ (isPrefixOf_self_append t post)
  | cons x xs ih => rw [List.cons_append, containsList_cons, ih, Bool.or_true]

theorem containsStr_middle (pre t post : String) :
    containsStr (pre ++ t ++ post) t = true := by
  unfold containsStr
  rw [strData_append, strData_append, List.append_assoc]
  exact containsList_middle _ _ _

theorem joinSep_mem_split (sep b : String) (l : List String) (h : b ∈ l) :
    ∃ pre post, joinSep sep l = pre ++ b ++ post := by
  induction l with
  | nil => cases h
  | cons x xs ih =>
    rcases List.mem_cons.mp h with rfl | hmem
    · cases xs with
      | nil => exact ⟨"", "", by cases b; show String.mk _ = String.mk _; simp⟩
      | cons y ys =>
          refine ⟨"", sep ++ joinSep sep (y :: ys), ?_⟩
          show b ++ sep ++ joinSep sep (y :: ys) = "" ++ b ++ (sep ++ joinSep sep (y :: ys))
          rw [str_append_assoc]
          cases b; cases sep; rfl
    · obtain ⟨pre, post, hp⟩ := ih hmem
      cases xs with
      | nil => cases hmem
      | cons y ys =>
          refine ⟨x ++ sep ++ pre, post, ?_⟩
          show x ++ sep ++ joinSep sep (y :: ys) = x ++ sep ++ pre ++ b ++ post
          rw [hp, ← str_append_assoc, ← str_append_assoc]

theorem containsStr_append_joinSep (front sep : String) (l : List String) (b : String)
    (h : b ∈ l) : containsStr (front ++ joinSep sep l) b = true := by
  obtain ⟨pre, post, hp⟩ := joinSep_mem_split sep b l h
  rw [hp, ← str_append_assoc, ← str_append_assoc]
  exact containsStr_middle (front ++ pre) b post

theorem checkChains_append_of_clean (sk : List String) (pre l : List ChainDefinition)
    (h : ∀ c ∈ pre, missingBones sk c = []) :
    checkChains sk (pre ++ l) = checkChains sk l := by
  induction pre with
  | nil => rfl
  | cons c cs ih =>
    have hc : missingBones sk c = [] := h c (by simp)
    rw [List.cons_append]
    show (if (missingBones sk c).isEmpty then checkChains sk (cs ++ l)
          else Except.error (chainErrMsg c.name (missingBones sk c))) = checkChains sk l
    rw [hc]
    exact ih (fun c' hc' => h c' (by simp [hc']))

theorem checkChains_error_head (sk : List String) (c : ChainDefinition)
    (rest : List ChainDefinition) (h : missingBones sk c ≠ []) :
    checkChains sk (c :: rest) = .error (chainErrMsg c.name (missingBones sk c)) := by
  show (if (missingBones sk c).isEmpty then checkChains sk rest
        else Except.error (chainErrMsg c.name (missingBones sk c))) =
       Except.error (chainErrMsg c.name (missingBones sk c))
  cases hm : missingBones sk c with
  | nil => exact absurd hm h
  | cons a as => rfl

/-- The graph validator reports exactly the first chain (in `chainsV2` order)
whose bone references do not all resolve, with all of that chain's missing
bones in the message. -/
theorem validate_first_offender (bp : SpeciesBlueprint) (pre : List ChainDefinition)
    (c : ChainDefinition) (rest : List ChainDefinition)
    (hsplit : bp.chainsV2 = pre ++ c :: rest)
    (hpre : ∀ c' ∈ pre, missingBones (bp.skeleton.bones.map (fun b => b.name)) c' = [])
    (hc : missingBones (bp.skeleton.bones.map (fun b => b.name)) c ≠ []) :
    validate_chains_and_bodyparts bp =
      .error (chainErrMsg c.name (missingBones (bp.skeleton.bones.map (fun b => b.name)) c)) := by
  unfold validate_chains_and_bodyparts
  rw [hsplit]
  have hne : ¬(!bp.bodyPartsV2.isEmpty &&
      ((pre ++ c :: rest).map (fun c => c.name)).isEmpty) = true := by
    simp
  rw [if_neg hne]
  have hcc : checkChains (bp.skeleton.bones.map (fun b => b.name)) (pre ++ c :: rest) =
      .error (chainErrMsg c.name (missingBones (bp.skeleton.bones.map (fun b => b.name)) c)) := by
    rw [checkChains_append_of_clean _ _ _ hpre]
    exact checkChains_error_head _ _ _ hc
  simp only [hcc]

theorem validate_ok_eq (x y : SpeciesBlueprint)
    (h : validate_chains_and_bodyparts x = .ok y) : y = x := by
  replace h :
      (if (!x.bodyPartsV2.isEmpty && (x.chainsV2.map (fun c => c.name)).isEmpty) = true then
        (Except.error "chainsV2 must be provided when bodyPartsV2 are defined" :
          Except String SpeciesBlueprint)
      else
        match checkChains (x.skeleton.bones.map (fun b => b.name)) x.chainsV2 with
        | .error e => .error e
        | .ok _ =>
          match checkParts (x.chainsV2.map (fun c => c.name)) x.bodyPartsV2 with
          | .error e => .error e
          | .ok _ => .ok x) = .ok y := h
  split at h
  · cases h
  · split at h
    · cases h
    · split at h
      · cases h
      · exact (Except.ok.inj h).symm

theorem parseRef_dump_parse (r : BodyPartRefDoc) :
    parseRefDoc (dumpRef (parseRefDoc r)) = parseRefDoc r := rfl

theorem optRef_parse_dump_parse (o : Option BodyPartRefDoc) :
    ((o.map parseRefDoc).map dumpRef).map parseRefDoc = o.map parseRefDoc := by
  cases o <;> rfl

theorem extraParts_parse_dump_parse (l : List (String × BodyPartRefDoc)) :
    ((l.map (fun kv => (kv.1, parseRefDoc kv.2))).map
        (fun kv => (kv.1, dumpRef kv.2))).map (fun kv => (kv.1, parseRefDoc kv.2)) =
      l.map (fun kv => (kv.1, parseRefDoc kv.2)) := by
  induction l with
  | nil => rfl
  | cons kv kvs ih =>
    simp only [List.map_cons, List.cons.injEq]
    exact ⟨rfl, ih⟩

theorem config_parse_dump_parse (c : BodyPartsConfigDoc) :
    parseConfigDoc (dumpConfig (parseConfigDoc c)) = parseConfigDoc c := by
  show (⟨((c.torso.map parseRefDoc).map dumpRef).map parseRefDoc,
    ((c.neck.map parseRefDoc).map dumpRef).map parseRefDoc,
    ((c.head.map parseRefDoc).map dumpRef).map parseRefDoc,
    ((c.trunk.map parseRefDoc).map dumpRef).map parseRefDoc,
    ((c.tail.map parseRefDoc).map dumpRef).map parseRefDoc,
    ((c.earLeft.map parseRefDoc).map dumpRef).map parseRefDoc,
    ((c.earRight.map parseRefDoc).map dumpRef).map parseRefDoc,
    ((c.frontLegL.map parseRefDoc).map dumpRef).map parseRefDoc,
    ((c.frontLegR.map parseRefDoc).map dumpRef).map parseRefDoc,
    ((c.backLegL.map parseRefDoc).map dumpRef).map parseRefDoc,
    ((c.backLegR.map parseRefDoc).map dumpRef).map parseRefDoc,
    (((c.extraParts.map (fun kv => (kv.1, parseRefDoc kv.2))).map
        (fun kv => (kv.1, dumpRef kv.2))).map (fun kv => (kv.1, parseRefDoc kv.2)))⟩ :
      BodyPartsConfig) =
    ⟨c.torso.map parseRefDoc, c.neck.map parseRefDoc, c.head.map parseRefDoc,
     c.trunk.map parseRefDoc, c.tail.map parseRefDoc, c.earLeft.map parseRefDoc,
     c.earRight.map parseRefDoc, c.frontLegL.map parseRefDoc, c.frontLegR.map parseRefDoc,
     c.backLegL.map parseRefDoc, c.backLegR.map parseRefDoc,
     c.extraParts.map (fun kv => (kv.1, parseRefDoc kv.2))⟩
  rw [optRef_parse_dump_parse, optRef_parse_dump_parse, optRef_parse_dump_parse,
    optRef_parse_dump_parse, optRef_parse_dump_parse, optRef_parse_dump_parse,
    optRef_parse_dump_parse, optRef_parse_dump_parse, optRef_parse_dump_parse,
    optRef_parse_dump_parse, optRef_parse_dump_parse, extraParts_parse_dump_parse]

theorem optConfig_parse_dump_parse (o : Option BodyPartsConfigDoc) :
    ((o.map parseConfigDoc).map dumpConfig).map parseConfigDoc = o.map parseConfigDoc := by
  cases o with
  | none => rfl
  | some c =>
      show some (parseConfigDoc (dumpConfig (parseConfigDoc c))) = some (parseConfigDoc c)
      rw [config_parse_dump_parse]

theorem parts_parse_dump_parse (ps : List BodyPartDoc) :
    ((ps.map parseBodyPartDoc).map dumpBodyPart).map parseBodyPartDoc =
      ps.map parseBodyPartDoc := by
  induction ps with
  | nil => rfl
  | cons p rest ih =>
    simp only [List.map_cons, List.cons.injEq]
    exact ⟨rfl, ih⟩

theorem translate_dump_translate (d : SpeciesBlueprintDoc) :
    translateDoc (dumpSpeciesBlueprint (translateDoc d)) = translateDoc d := by
  show (⟨d.meta, d.bodyPlan, d.skeleton, d.chains, d.sizes,
    ((d.bodyParts.map parseConfigDoc).map dumpConfig).map parseConfigDoc, d.chainsV2,
    ((d.bodyPartsV2.map parseBodyPartDoc).map dumpBodyPart).map parseBodyPartDoc,
    d.materials, d.behaviorPresets⟩ : SpeciesBlueprint) = translateDoc d
  rw [optConfig_parse_dump_parse, parts_parse_dump_parse]
  rfl

/-! ## Fixtures

Concrete blueprints used to instantiate the claims at evaluable inputs. -/

/-- Fixture: document with a resolvable chain and one V2 body part whose
options record carries a generator-specific key. -/
def rtDoc : SpeciesBlueprintDoc :=
  { meta := { name := "RoundTrip" }, bodyPlan := { type := "quadruped" },
    skeleton := { bones := [⟨"root", "", [⟨0, 0⟩, ⟨0, 0⟩, ⟨0, 0⟩]⟩,
                           ⟨"neck1", "root", [⟨0, 0⟩, ⟨1, 0⟩, ⟨0, 0⟩]⟩] },
    sizes := {},
    chainsV2 := [⟨"neckChain", ["root", "neck1"], none, none, none⟩],
    bodyPartsV2 := [⟨"neckPart", "neckGenerator", "neckChain",
      [("lowPolySegments", .num ⟨2, 0⟩)]⟩],
    materials := {}, behaviorPresets := {} }

/-- Fixture: the blueprint validation makes of `rtDoc` — its options record
resolves to the untyped raw member of the union, carried verbatim. -/
def rtParsed : SpeciesBlueprint :=
  { meta := { name := "RoundTrip" }, bodyPlan := { type := "quadruped" },
    skeleton := { bones := [⟨"root", "", [⟨0, 0⟩, ⟨0, 0⟩, ⟨0, 0⟩]⟩,
                           ⟨"neck1", "root", [⟨0, 0⟩, ⟨1, 0⟩, ⟨0, 0⟩]⟩] },
    sizes := {},
    chainsV2 := [⟨"neckChain", ["root", "neck1"], none, none, none⟩],
    bodyPartsV2 := [⟨"neckPart", "neckGenerator", "neckChain",
      .raw [("lowPolySegments", .num ⟨2, 0⟩)]⟩],
    materials := {}, behaviorPresets := {} }

/-- Fixture: blueprint with two distinct chains that each reference a bone
missing from the single-bone skeleton. -/
def twoBadBp : SpeciesBlueprint :=
  { meta := { name := "TwoBad" }, bodyPlan := { type := "quadruped" },
    skeleton := { bones := [⟨"root", "", [⟨0, 0⟩, ⟨0, 0⟩, ⟨0, 0⟩]⟩] },
    sizes := {},
    chainsV2 := [⟨"alpha", ["mboneA"], none, none, none⟩,
                 ⟨"beta", ["mboneB"], none, none, none⟩],
    materials := {}, behaviorPresets := {} }

/-- Fixture: the spec's concrete scenario — skeleton `root/spine1/head`,
chain `spine` over `spine1` and the dangling `headX`, and a body part
binding `headGenerator` to `spine`. -/
def scenBp : SpeciesBlueprint :=
  { meta := { name := "ScenarioAnimal" }, bodyPlan := { type := "quadruped" },
    skeleton := { bones := [⟨"root", "", [⟨0, 0⟩, ⟨0, 0⟩, ⟨0, 0⟩]⟩,
                           ⟨"spine1", "root", [⟨0, 0⟩, ⟨1, 0⟩, ⟨0, 0⟩]⟩,
                           ⟨"head", "spine1", [⟨0, 0⟩, ⟨2, 0⟩, ⟨0, 0⟩]⟩] },
    sizes := {},
    chainsV2 := [⟨"spine", ["spine1", "headX"], none, none, none⟩],
    bodyPartsV2 := [⟨"head", "headGenerator", "spine",
      .raw [("sides", .str "freeform")]⟩],
    materials := {}, behaviorPresets := {} }

/-- Fixture: blueprint with V2 body parts but no V2 chains. -/
def v2OnlyBp : SpeciesBlueprint :=
  { meta := { name := "NoChains" }, bodyPlan := { type := "biped" },
    skeleton := { bones := [⟨"root", "", [⟨0, 0⟩, ⟨0, 0⟩, ⟨0, 0⟩]⟩] },
    sizes := {},
    chainsV2 := [],
    bodyPartsV2 := [⟨"torso", "torsoGenerator", "spine", .raw []⟩],
    materials := {}, behaviorPresets := {} }

/-! ## Claim theorems -/

/-- C2 counterexample: `twoBadBp` is structurally well-formed and both of its
chains reference missing bones, yet the validator's failure names only the
first chain `alpha` with its missing bone — neither the second offending
chain `beta` nor its missing bone `mboneB` appears in the message. -/
theorem C2_counterexample :
    (twoBadBp.chainsV2.map (fun c =>
        (missingBones (twoBadBp.skeleton.bones.map (fun b => b.name)) c).isEmpty)) =
      [false, false] ∧
    validate_chains_and_bodyparts twoBadBp =
      .error "Chain 'alpha' references missing bones: mboneA" ∧
    containsStr "Chain 'alpha' references missing bones: mboneA" "beta" = false ∧
    containsStr "Chain 'alpha' references missing bones: mboneA" "mboneB" = false :=
  ⟨rfl, rfl, by decide, by decide⟩

/-- C2 (amended): when several distinct `chainsV2` entries reference missing
bones, graph validation fails on the first offending chain in list order and
its message carries that chain's full set of missing bones; later offending
chains are not part of the reported failure, which is a function of the
first offender alone. -/
theorem C2_first_offender_reported (bp : SpeciesBlueprint) (pre : List ChainDefinition)
    (c : ChainDefinition) (rest : List ChainDefinition) (c₂ : ChainDefinition)
    (hsplit : bp.chainsV2 = pre ++ c :: rest)
    (hpre : ∀ c' ∈ pre, missingBones (bp.skeleton.bones.map (fun b => b.name)) c' = [])
    (hc : missingBones (bp.skeleton.bones.map (fun b => b.name)) c ≠ [])
    (_hc₂mem : c₂ ∈ rest)
    (_hc₂bad : missingBones (bp.skeleton.bones.map (fun b => b.name)) c₂ ≠ []) :
    validate_chains_and_bodyparts bp =
      .error (chainErrMsg c.name (missingBones (bp.skeleton.bones.map (fun b => b.name)) c)) :=
  validate_first_offender bp pre c rest hsplit hpre hc

/-- C2 witness: the amended statement instantiated at `twoBadBp`, whose first
offending chain is `alpha` and whose second offending chain is `beta`. -/
theorem C2_first_offender_reported_witness :
    validate_chains_and_bodyparts twoBadBp =
      .error (chainErrMsg "alpha"
        (missingBones (twoBadBp.skeleton.bones.map (fun b => b.name))
          ⟨"alpha", ["mboneA"], none, none, none⟩)) :=
  C2_first_offender_reported twoBadBp [] ⟨"alpha", ["mboneA"], none, none, none⟩
    [⟨"beta", ["mboneB"], none, none, none⟩] ⟨"beta", ["mboneB"], none, none, none⟩
    rfl (by simp) (by decide) (List.Mem.head _) (by decide)

/-- C4: a blueprint whose `bodyPartsV2` is non-empty while `chainsV2` is
empty always fails graph validation, with the dedicated precondition
message, regardless of every other field. -/
theorem C4_v2_parts_require_chains (bp : SpeciesBlueprint)
    (h1 : bp.bodyPartsV2 ≠ []) (h2 : bp.chainsV2 = []) :
    validate_chains_and_bodyparts bp =
      .error "chainsV2 must be provided when bodyPartsV2 are defined" := by
  unfold validate_chains_and_bodyparts
  rw [h2]
  have hcond : (!bp.bodyPartsV2.isEmpty &&
      (([] : List ChainDefinition).map (fun c => c.name)).isEmpty) = true := by
    cases hb : bp.bodyPartsV2 with
    | nil => exact absurd hb h1
    | cons p ps => simp
  rw [if_pos hcond]

/-- C4 witness: the precondition theorem applied at `v2OnlyBp`. -/
theorem C4_v2_parts_require_chains_witness :
    v2OnlyBp.bodyPartsV2 ≠ [] ∧ v2OnlyBp.chainsV2 = [] ∧
    validate_chains_and_bodyparts v2OnlyBp =
      .error "chainsV2 must be provided when bodyPartsV2 are defined" :=
  ⟨List.cons_ne_nil _ _, rfl,
   C4_v2_parts_require_chains v2OnlyBp (List.cons_ne_nil _ _) rfl⟩

/-- C5 counterexample: a blueprint containing the chain `spine` with the
dangling bone `headX` (preceded by another offending chain `zeta`) for which
validation fails with a message that cites neither `spine` nor `headX`. -/
theorem C5_counterexample :
    (missingBones ["root", "spine1", "head"] ⟨"spine", ["spine1", "headX"], none, none, none⟩ ≠ []) ∧
    validate_chains_and_bodyparts
      { meta := { name := "Shadowed" }, bodyPlan := { type := "quadruped" },
        skeleton := { bones := [⟨"root", "", [⟨0, 0⟩, ⟨0, 0⟩, ⟨0, 0⟩]⟩,
                               ⟨"spine1", "root", [⟨0, 0⟩, ⟨1, 0⟩, ⟨0, 0⟩]⟩,
                               ⟨"head", "spine1", [⟨0, 0⟩, ⟨2, 0⟩, ⟨0, 0⟩]⟩] },
        sizes := {},
        chainsV2 := [⟨"zeta", ["gone1"], none, none, none⟩,
                     ⟨"spine", ["spine1", "headX"], none, none, none⟩],
        materials := {}, behaviorPresets := {} } =
      .error "Chain 'zeta' references missing bones: gone1" ∧
    containsStr "Chain 'zeta' references missing bones: gone1" "spine" = false ∧
    containsStr "Chain 'zeta' references missing bones: gone1" "headX" = false :=
  ⟨by decide, rfl, by decide, by decide⟩

/-- C5 (amended): for the first chain (in `chainsV2` order) that references
missing bones, validation fails with a graph error that names that chain and
every one of its missing bones; the spec's concrete scenario — chain `spine`
missing `headX` — is an instance (see the witness).  Offending chains after
the first are not named (see the counterexample). -/
theorem C5_chain_error_names_chain_and_bones (bp : SpeciesBlueprint)
    (pre : List ChainDefinition) (c : ChainDefinition) (rest : List ChainDefinition)
    (hsplit : bp.chainsV2 = pre ++ c :: rest)
    (hpre : ∀ c' ∈ pre, missingBones (bp.skeleton.bones.map (fun b => b.name)) c' = [])
    (hc : missingBones (bp.skeleton.bones.map (fun b => b.name)) c ≠ []) :
    validate_chains_and_bodyparts bp =
      .error (chainErrMsg c.name (missingBones (bp.skeleton.bones.map (fun b => b.name)) c)) ∧
    containsStr (chainErrMsg c.name (missingBones (bp.skeleton.bones.map (fun b => b.name)) c))
      c.name = true ∧
    ∀ b ∈ missingBones (bp.skeleton.bones.map (fun b => b.name)) c,
      containsStr (chainErrMsg c.name (missingBones (bp.skeleton.bones.map (fun b => b.name)) c))
        b = true := by
  refine ⟨validate_first_offender bp pre c rest hsplit hpre hc, ?_, ?_⟩
  · show containsStr ("Chain '" ++ c.name ++ "' references missing bones: " ++
      joinSep ", " (missingBones (bp.skeleton.bones.map (fun b => b.name)) c)) c.name = true
    rw [str_append_assoc ("Chain '" ++ c.name)]
    exact containsStr_middle "Chain '" c.name _
  · intro b hb
    exact containsStr_append_joinSep _ ", " _ b hb

/-- C5 witness: the spec scenario — validation of `scenBp` yields exactly the
graph error for chain `spine`, and that message contains both `spine` and
the missing bone `headX`. -/
theorem C5_chain_error_names_chain_and_bones_witness :
    validate_chains_and_bodyparts scenBp = .error (chainErrMsg "spine" ["headX"]) ∧
    containsStr (chainErrMsg "spine" ["headX"]) "spine" = true ∧
    containsStr (chainErrMsg "spine" ["headX"]) "headX" = true :=
  have h := C5_chain_error_names_chain_and_bones scenBp []
    ⟨"spine", ["spine1", "headX"], none, none, none⟩ [] rfl (by simp) (by decide)
  ⟨h.1, h.2.1, h.2.2 "headX" (by decide)⟩

/-- C3: every Blueprint produced by `validate` round-trips — serializing it
back to a document and re-validating yields the identical Blueprint — and
every options record (which under the smart union is carried as the open
untyped member, in particular one matching no known generator-option shape)
is preserved verbatim through parse, dump and re-parse. -/
theorem C3_validate_roundtrip (d : SpeciesBlueprintDoc) (bp : SpeciesBlueprint)
    (h : parseSpeciesBlueprintDoc d = .ok bp) :
    parseSpeciesBlueprintDoc (dumpSpeciesBlueprint bp) = .ok bp ∧
    ∀ rec : List (String × Json),
      dumpOptions (parseOptions rec) = rec ∧
      parseOptions (dumpOptions (parseOptions rec)) = parseOptions rec := by
  obtain rfl : bp = translateDoc d := validate_ok_eq _ _ h
  refine ⟨?_, fun rec => ⟨rfl, rfl⟩⟩
  show validate_chains_and_bodyparts
    (translateDoc (dumpSpeciesBlueprint (translateDoc d))) = .ok (translateDoc d)
  rw [translate_dump_translate]
  exact h

/-- C3 witness: the round-trip theorem applied to `rtDoc`, whose validation
result is `rtParsed` with its options record carried verbatim. -/
theorem C3_validate_roundtrip_witness :
    parseSpeciesBlueprintDoc rtDoc = .ok rtParsed ∧
    parseSpeciesBlueprintDoc (dumpSpeciesBlueprint rtParsed) = .ok rtParsed ∧
    dumpOptions (parseOptions [("lowPolySegments", .num ⟨2, 0⟩)]) =
      [("lowPolySegments", .num ⟨2, 0⟩)] :=
  ⟨rfl, (C3_validate_roundtrip rtDoc rtParsed rfl).1,
   ((C3_validate_roundtrip rtDoc rtParsed rfl).2 [("lowPolySegments", .num ⟨2, 0⟩)]).1⟩

/-! ## Material slot lemmas and claims C6 / C9 -/

def optOr : Option Json → Option Json → Option Json
  | some v, _ => some v
  | none, o => o

theorem jLookup_append (a b : List (String × Json)) (k : String) :
    jLookup (a ++ b) k = optOr (jLookup a k) (jLookup b k) := by
  induction a with
  | nil => rfl
  | cons p ps ih =>
    obtain ⟨k', v⟩ := p
    by_cases h : k' = k
    · simp [jLookup, h, optOr]
    · simp [jLookup, h, ih]

theorem slotParameters_color (d : MaterialDefinition) :
    jLookup (slotParameters d) "color" =
      (match d.color with
       | some c => if c = "" then none else some (.str c)
       | none => none) := by
  obtain ⟨c, r, m, s, e⟩ := d
  cases c <;> cases r <;> cases m <;> cases s <;> cases e <;>
    simp [slotParameters, jLookup_append, optOr, jLookup] <;>
      split_ifs <;> simp [jLookup]

theorem slotParameters_roughness (d : MaterialDefinition) :
    jLookup (slotParameters d) "roughness" = d.roughness.map Json.num := by
  obtain ⟨c, r, m, s, e⟩ := d
  cases c <;> cases r <;> cases m <;> cases s <;> cases e <;>
    simp [slotParameters, jLookup_append, optOr, jLookup] <;>
      split_ifs <;> simp [jLookup]

theorem slotParameters_metallic (d : MaterialDefinition) :
    jLookup (slotParameters d) "metallic" = d.metallic.map Json.num := by
  obtain ⟨c, r, m, s, e⟩ := d
  cases c <;> cases r <;> cases m <;> cases s <;> cases e <;>
    simp [slotParameters, jLookup_append, optOr, jLookup] <;>
      split_ifs <;> simp [jLookup]

theorem slotParameters_specular (d : MaterialDefinition) :
    jLookup (slotParameters d) "specular" = d.specular.map Json.num := by
  obtain ⟨c, r, m, s, e⟩ := d
  cases c <;> cases r <;> cases m <;> cases s <;> cases e <;>
    simp [slotParameters, jLookup_append, optOr, jLookup] <;>
      split_ifs <;> simp [jLookup]

theorem slotParameters_emissive (d : MaterialDefinition) :
    jLookup (slotParameters d) "emissive" =
      (match d.emissive with
       | some s => if s = "" then none else some (.str s)
       | none => none) := by
  obtain ⟨c, r, m, s, e⟩ := d
  cases c <;> cases r <;> cases m <;> cases s <;> cases e <;>
    simp [slotParameters, jLookup_append, optOr, jLookup] <;>
      split_ifs <;> simp [jLookup]

theorem slotParameters_no_null (d : MaterialDefinition) :
    (slotParameters d).all (fun kv => !kv.2.isNull) = true := by
  obtain ⟨c, r, m, s, e⟩ := d
  cases c <;> cases r <;> cases m <;> cases s <;> cases e <;>
    simp [slotParameters, Json.isNull]

theorem slotParameters_keys (d : MaterialDefinition) :
    (slotParameters d).all
      (fun kv => ["color", "roughness", "metallic", "specular", "emissive"].contains kv.1) =
      true := by
  obtain ⟨c, r, m, s, e⟩ := d
  cases c <;> cases r <;> cases m <;> cases s <;> cases e <;>
    simp [slotParameters]

/-- Key lookup inside a slot descriptor object. -/
def slotKey (j : Json) (k : String) : Option Json :=
  match j with
  | .obj kvs => jLookup kvs k
  | _ => none

/-- Lookup of one tunable parameter inside a slot's `nodeGraph` block. -/
def ngParam (j : Json) (k : String) : Option Json :=
  match slotKey j "nodeGraph" with
  | some (.obj ng) =>
      match jLookup ng "parameters" with
      | some (.obj ps) => jLookup ps k
      | _ => none
  | _ => none

theorem albedo_default (d : MaterialDefinition) :
    (jLookup (slotParameters d) "color").getD (.str "#7a6f63") =
      (match d.color with
       | some c => if c = "" then .str "#7a6f63" else .str c
       | none => .str "#7a6f63") := by
  rw [slotParameters_color]
  cases d.color with
  | none => rfl
  | some c => by_cases h : c = "" <;> simp [h]

theorem rough_default (d : MaterialDefinition) :
    (jLookup (slotParameters d) "roughness").getD (.num ⟨78, 2⟩) =
      (match d.roughness with
       | some r => Json.num r
       | none => .num ⟨78, 2⟩) := by
  rw [slotParameters_roughness]
  cases d.roughness <;> simp

/-- Fixture: trunked blueprint with a populated surface material. -/
def trunkBp : SpeciesBlueprint :=
  { meta := { name := "Mammoth" }, bodyPlan := { type := "quadruped", hasTrunk := true },
    skeleton := { bones := [⟨"root", "", [⟨0, 0⟩, ⟨0, 0⟩, ⟨0, 0⟩]⟩] },
    sizes := {},
    materials := { surface := some { color := some "#7a6f63", roughness := some ⟨6, 1⟩ } },
    behaviorPresets := {} }

/-- Fixture: trunkless blueprint whose display name does not contain
"elephant", with a populated surface material. -/
def plainBp : SpeciesBlueprint :=
  { meta := { name := "Giraffe" }, bodyPlan := { type := "quadruped" },
    skeleton := { bones := [⟨"root", "", [⟨0, 0⟩, ⟨0, 0⟩, ⟨0, 0⟩]⟩] },
    sizes := {},
    materials := { surface := some { color := some "#c8a165" } },
    behaviorPresets := {} }

/-- C6: with `hasTrunk = true` the resolved surface slot has workflow
`node/tsl` and a populated `nodeGraph` whose `albedoTint` defaults to the
slot's color or `#7a6f63`, whose `roughness` defaults to the slot's
roughness or `0.78` and whose `displacement` is `0.02`; with
`hasTrunk = false` and a display name not containing "elephant" in any case,
the surface slot has workflow `pbr` and no `nodeGraph` key. -/
theorem C6_surface_workflow (bp : SpeciesBlueprint) (d : MaterialDefinition)
    (hs : bp.materials.surface = some d) :
    (bp.bodyPlan.hasTrunk = true →
      (materialSlots bp).head? = some (materialSlotFromDefinition "surface" d true) ∧
      slotKey (materialSlotFromDefinition "surface" d true) "workflow" =
        some (.str "node/tsl") ∧
      (slotKey (materialSlotFromDefinition "surface" d true) "nodeGraph").isSome = true ∧
      ngParam (materialSlotFromDefinition "surface" d true) "albedoTint" =
        some (match d.color with
              | some c => if c = "" then .str "#7a6f63" else .str c
              | none => .str "#7a6f63") ∧
      ngParam (materialSlotFromDefinition "surface" d true) "roughness" =
        some (match d.roughness with
              | some r => Json.num r
              | none => .num ⟨78, 2⟩) ∧
      ngParam (materialSlotFromDefinition "surface" d true) "displacement" =
        some (.num ⟨2, 2⟩)) ∧
    (bp.bodyPlan.hasTrunk = false →
      containsStr (pyLower bp.meta.name) "elephant" = false →
      (materialSlots bp).head? = some (materialSlotFromDefinition "surface" d false) ∧
      slotKey (materialSlotFromDefinition "surface" d false) "workflow" = some (.str "pbr") ∧
      slotKey (materialSlotFromDefinition "surface" d false) "nodeGraph" = none) := by
  constructor
  · intro hT
    have hforce : animalIsElephant bp = true := by simp [animalIsElephant, hT]
    refine ⟨?_, rfl, rfl, ?_, ?_, rfl⟩
    · simp [materialSlots, hs, hforce]
    · exact congrArg some (albedo_default d)
    · exact congrArg some (rough_default d)
  · intro hT hname
    have hforce : animalIsElephant bp = false := by
      simp [animalIsElephant, hT, hname]
    refine ⟨?_, rfl, rfl⟩
    simp [materialSlots, hs, hforce]

/-- C6 witness: the two directions instantiated at the trunked `trunkBp` and
the trunkless, non-elephant-named `plainBp`. -/
theorem C6_surface_workflow_witness :
    slotKey (materialSlotFromDefinition "surface"
        { color := some "#7a6f63", roughness := some ⟨6, 1⟩ } true) "workflow" =
      some (.str "node/tsl") ∧
    ngParam (materialSlotFromDefinition "surface"
        { color := some "#7a6f63", roughness := some ⟨6, 1⟩ } true) "albedoTint" =
      some (.str "#7a6f63") ∧
    slotKey (materialSlotFromDefinition "surface"
        { color := some "#c8a165" } false) "workflow" = some (.str "pbr") ∧
    slotKey (materialSlotFromDefinition "surface"
        { color := some "#c8a165" } false) "nodeGraph" = none :=
  ⟨((C6_surface_workflow trunkBp
      { color := some "#7a6f63", roughness := some ⟨6, 1⟩ } rfl).1 rfl).2.1,
   ((C6_surface_workflow trunkBp
      { color := some "#7a6f63", roughness := some ⟨6, 1⟩ } rfl).1 rfl).2.2.2.1,
   ((C6_surface_workflow plainBp
      { color := some "#c8a165" } rfl).2 rfl (by decide)).2.1,
   ((C6_surface_workflow plainBp
      { color := some "#c8a165" } rfl).2 rfl (by decide)).2.2⟩

/-- C9 counterexample: a material definition whose `color` is the non-null
empty string is not copied into `parameters` — Python truthiness, not
`is not None`, guards `color` (and `emissive`). -/
theorem C9_counterexample :
    ({ color := some "", roughness := some ⟨5, 1⟩ } : MaterialDefinition).color ≠ none ∧
    jLookup (slotParameters { color := some "", roughness := some ⟨5, 1⟩ }) "color" = none :=
  ⟨by decide, rfl⟩

/-- C9 (amended): a material slot's `parameters` record contains `roughness`,
`metallic` and `specular` exactly when they are non-null, and `color` and
`emissive` exactly when they are non-null and non-empty (Python truthiness);
only the five source fields ever appear and no null value is ever emitted. -/
theorem C9_parameters_truthiness (d : MaterialDefinition) :
    jLookup (slotParameters d) "color" =
      (match d.color with
       | some c => if c = "" then none else some (.str c)
       | none => none) ∧
    jLookup (slotParameters d) "roughness" = d.roughness.map Json.num ∧
    jLookup (slotParameters d) "metallic" = d.metallic.map Json.num ∧
    jLookup (slotParameters d) "specular" = d.specular.map Json.num ∧
    jLookup (slotParameters d) "emissive" =
      (match d.emissive with
       | some s => if s = "" then none else some (.str s)
       | none => none) ∧
    (slotParameters d).all (fun kv => !kv.2.isNull) = true ∧
    (slotParameters d).all
      (fun kv => ["color", "roughness", "metallic", "specular", "emissive"].contains kv.1) =
      true :=
  ⟨slotParameters_color d, slotParameters_roughness d, slotParameters_metallic d,
   slotParameters_specular d, slotParameters_emissive d, slotParameters_no_null d,
   slotParameters_keys d⟩

/-! ## Export claims C1 / C7 / C8 / C10 -/

set_option maxRecDepth 10000

/-- The `tooling.timestamp` field of a manifest payload. -/
def manifestTimestamp (j : Json) : Option Json :=
  match j with
  | .obj kvs =>
      match jLookup kvs "tooling" with
      | some (.obj t) => jLookup t "timestamp"
      | _ => none
  | _ => none

/-- Fixture: small exportable blueprint. -/
def expBp : SpeciesBlueprint :=
  { meta := { name := "Rhino" }, bodyPlan := { type := "quadruped" },
    skeleton := { bones := [⟨"root", "", [⟨0, 0⟩, ⟨0, 0⟩, ⟨0, 0⟩]⟩] },
    sizes := {},
    materials := { surface := some { color := some "#8a8a8a", roughness := some ⟨7, 1⟩ } },
    behaviorPresets := { gait := some "amble" } }

/-- C1 counterexample: two exports of the same validated blueprint and
version whose manifest-build clock readings differ by one second produce
different `manifest.json` bytes, so the three payload checksums are not all
equal across the two runs. -/
theorem C1_counterexample :
    (exportWrittenFiles digestStandIn expBp "1.0.0"
        "2024-05-01T12:00:00+00:00" []).lookup "manifest.json" ≠
      (exportWrittenFiles digestStandIn expBp "1.0.0"
        "2024-05-01T12:00:01+00:00" []).lookup "manifest.json" := by
  decide

/-- C1 (amended): across two exports of the same Blueprint and version the
`AnimalDefinition.json` and `materials.json` bytes are identical (so their
checksums agree for any digest function), while the manifest payload agrees
between the runs exactly when the two wall-clock readings recorded in its
`tooling.timestamp` field coincide. -/
theorem C1_payload_determinism (hash : String → String) (bp : SpeciesBlueprint)
    (version t1 t2 : String) (assets : List (String × String)) :
    (exportWrittenFiles hash bp version t1 assets).lookup "AnimalDefinition.json" =
      (exportWrittenFiles hash bp version t2 assets).lookup "AnimalDefinition.json" ∧
    (exportWrittenFiles hash bp version t1 assets).lookup "materials.json" =
      (exportWrittenFiles hash bp version t2 assets).lookup "materials.json" ∧
    (manifestPayload version bp.meta.name bp.meta.schemaVersion
        (exportChecksums hash bp assets) t1 =
      manifestPayload version bp.meta.name bp.meta.schemaVersion
        (exportChecksums hash bp assets) t2 ↔ t1 = t2) := by
  have hA : ∀ t, (exportWrittenFiles hash bp version t assets).lookup
      "AnimalDefinition.json" =
      some (dumpJson (animalDefinitionPayload bp (safeAnimalName bp.meta.name)
        bp.meta.schemaVersion)) := fun t => rfl
  have hM : ∀ t, (exportWrittenFiles hash bp version t assets).lookup "materials.json" =
      some (dumpJson (materialsPayload bp bp.meta.schemaVersion)) := fun t => rfl
  refine ⟨(hA t1).trans (hA t2).symm, (hM t1).trans (hM t2).symm, ?_, ?_⟩
  · intro h
    have h2 : some (Json.str t1) = some (Json.str t2) := congrArg manifestTimestamp h
    exact Json.str.inj (Option.some.inj h2)
  · intro h
    rw [h]

/-- Fixture: blueprint with no gait, no idle behaviors and no special
interactions. -/
def quietBp : SpeciesBlueprint :=
  { meta := { name := "Sloth" }, bodyPlan := { type := "quadruped" },
    skeleton := { bones := [⟨"root", "", [⟨0, 0⟩, ⟨0, 0⟩, ⟨0, 0⟩]⟩] },
    sizes := {},
    materials := {}, behaviorPresets := {} }

/-- C8 counterexample: a blueprint with no gait, no idle behaviors and no
special interactions still gets a `runtime.json` file in the exported
bundle — the exporter writes the payload dictionary unconditionally. -/
theorem C8_counterexample :
    quietBp.behaviorPresets =
      { gait := none, idleBehaviors := [], specialInteractions := [], tags := [] } ∧
    ((exportWrittenFiles digestStandIn quietBp "1.0.0"
        "2024-05-01T12:00:00+00:00" []).map Prod.fst).contains "runtime.json" = true :=
  ⟨rfl, rfl⟩

/-- C8 (amended): `runtime.json` is written on every export; inside its
payload the `locomotion` sub-object is present exactly when a (non-empty)
gait is set and the `behavior` sub-object exactly when idle behaviors or
special interactions are non-empty — absent sections are omitted keys, not
empty objects. -/
theorem C8_runtime_always_written (hash : String → String) (bp : SpeciesBlueprint)
    (version timestamp schemaVersion : String) (assets : List (String × String)) :
    ((exportWrittenFiles hash bp version timestamp assets).map Prod.fst).contains
        "runtime.json" = true ∧
    (slotKey (runtimePayload bp schemaVersion) "locomotion").isSome = gaitTruthy bp ∧
    (slotKey (runtimePayload bp schemaVersion) "behavior").isSome =
      (!bp.behaviorPresets.idleBehaviors.isEmpty ||
        !bp.behaviorPresets.specialInteractions.isEmpty) := by
  refine ⟨rfl, ?_, ?_⟩
  · cases hg : bp.behaviorPresets.gait with
    | none =>
        cases hI : bp.behaviorPresets.idleBehaviors <;>
          cases hS : bp.behaviorPresets.specialInteractions <;>
            simp [runtimePayload, gaitTruthy, slotKey, jLookup_append, optOr, jLookup,
              hg, hI, hS]
    | some s =>
        by_cases hs : s = "" <;>
          cases hI : bp.behaviorPresets.idleBehaviors <;>
            cases hS : bp.behaviorPresets.specialInteractions <;>
              simp [runtimePayload, gaitTruthy, slotKey, jLookup_append, optOr, jLookup,
                hg, hI, hS, hs]
  · cases hg : bp.behaviorPresets.gait with
    | none =>
        cases hI : bp.behaviorPresets.idleBehaviors <;>
          cases hS : bp.behaviorPresets.specialInteractions <;>
            simp [runtimePayload, gaitTruthy, slotKey, jLookup_append, optOr, jLookup,
              hg, hI, hS]
    | some s =>
        by_cases hs : s = "" <;>
          cases hI : bp.behaviorPresets.idleBehaviors <;>
            cases hS : bp.behaviorPresets.specialInteractions <;>
              simp [runtimePayload, gaitTruthy, slotKey, jLookup_append, optOr, jLookup,
                hg, hI, hS, hs]

/-- C7: a version string that is blank after stripping is rejected by the
export route with the explicit 400 condition before storage is consulted,
and the filesystem state is returned untouched — no staging directory,
payload file or archive is created or modified. -/
theorem C7_blank_version_rejected_before_io (store : BlueprintStore)
    (hash : String → String) (timestamp : String) (assets : List (String × String))
    (name bodyVersion : String) (fs : FS)
    (h : pyStrip bodyVersion = "") :
    export_blueprint store hash timestamp assets name bodyVersion fs =
      (.badRequest "Missing or invalid 'version' in request body.", fs) := by
  unfold export_blueprint
  rw [h]
  rfl

/-- C7 witness: the route applied to the whitespace version string rejects
it and leaves the (empty) filesystem unchanged. -/
theorem C7_blank_version_rejected_before_io_witness :
    pyStrip "   " = "" ∧
    export_blueprint ⟨[]⟩ digestStandIn "2024-05-01T12:00:00+00:00" []
        "Elephant" "   " ⟨[], []⟩ =
      (.badRequest "Missing or invalid 'version' in request body.", ⟨[], []⟩) :=
  ⟨rfl, C7_blank_version_rejected_before_io ⟨[]⟩ digestStandIn
    "2024-05-01T12:00:00+00:00" [] "Elephant" "   " ⟨[], []⟩ rfl⟩

/-- Fixture: blueprint carrying both V2 body parts and a legacy body-parts
map. -/
def v2PartsBp : SpeciesBlueprint :=
  { meta := { name := "Bison" }, bodyPlan := { type := "quadruped" },
    skeleton := { bones := [⟨"root", "", [⟨0, 0⟩, ⟨0, 0⟩, ⟨0, 0⟩]⟩] },
    sizes := {},
    chainsV2 := [⟨"spineChain", ["root"], none, none, none⟩],
    bodyPartsV2 := [⟨"torso", "torsoGenerator", "spineChain",
      .raw [("sides", .str "freeform")]⟩],
    bodyParts := some { torso := some ⟨"legacyTorso", "spine",
      .raw [("sides", .str "freeform")]⟩ },
    materials := {}, behaviorPresets := {} }

/-- Fixture: the legacy body-parts map of `legacyPartsBp`. -/
def legacyCfg : BodyPartsConfig :=
  { torso := some ⟨"legacyTorso", "spine", .raw [("sides", .str "freeform")]⟩ }

/-- Fixture: blueprint with an empty `bodyPartsV2` and a legacy map. -/
def legacyPartsBp : SpeciesBlueprint :=
  { meta := { name := "Okapi" }, bodyPlan := { type := "quadruped" },
    skeleton := { bones := [⟨"root", "", [⟨0, 0⟩, ⟨0, 0⟩, ⟨0, 0⟩]⟩] },
    sizes := {},
    bodyParts := some legacyCfg,
    materials := {}, behaviorPresets := {} }

/-- C10: the whole `AnimalDefinition.json` payload — its `parts` array in
particular — is invariant under `meta.forceLegacyBuild`, and the exporter's
body-part selection is decided solely by `bodyPartsV2` being non-empty, then
by the legacy `bodyParts` map being present, else empty. -/
theorem C10_force_legacy_flag_inert (bp : SpeciesBlueprint) (flag : Bool)
    (animalSafe schemaVersion : String) :
    animalDefinitionPayload { bp with meta := { bp.meta with forceLegacyBuild := flag } }
        animalSafe schemaVersion =
      animalDefinitionPayload bp animalSafe schemaVersion ∧
    (bp.bodyPartsV2 ≠ [] → exportParts bp = bodyPartsFromV2 bp.bodyPartsV2) ∧
    (bp.bodyPartsV2 = [] →
      exportParts bp = (match bp.bodyParts with
                        | some c => bodyPartsFromV1 c
                        | none => [])) := by
  refine ⟨rfl, ?_, ?_⟩
  · intro h
    unfold exportParts
    cases hv : bp.bodyPartsV2 with
    | nil => exact absurd hv h
    | cons p ps => simp
  · intro h
    unfold exportParts
    rw [h]
    rfl

/-- C10 witness: the selection rule instantiated at a blueprint with V2
parts (and a shadowed legacy map) and at a blueprint with only the legacy
map, plus the flag-invariance at the V2 fixture. -/
theorem C10_force_legacy_flag_inert_witness :
    animalDefinitionPayload { v2PartsBp with
        meta := { v2PartsBp.meta with forceLegacyBuild := true } } "Bison" "4.2.0" =
      animalDefinitionPayload v2PartsBp "Bison" "4.2.0" ∧
    exportParts v2PartsBp = bodyPartsFromV2 v2PartsBp.bodyPartsV2 ∧
    exportParts legacyPartsBp = bodyPartsFromV1 legacyCfg :=
  ⟨(C10_force_legacy_flag_inert v2PartsBp true "Bison" "4.2.0").1,
   (C10_force_legacy_flag_inert v2PartsBp true "Bison" "4.2.0").2.1
     (List.cons_ne_nil _ _),
   (C10_force_legacy_flag_inert legacyPartsBp true "Okapi" "4.2.0").2.2 rfl⟩

end CreatureStudio
